import Mathlib

/-!
Verification of the dfsummary package (src/dfsummary/dfsummary.py and
src/dfsummary/dfsummary_helpers.py) against its specification.

The embedding models a pandas DataFrame as an ordered list of named, typed
columns; a cell is `Option ℚ` (`none` models NaN/null).  All statistic and
rendering calls into the external numeric/plotting collaborators (pandas,
numpy, seaborn) are represented symbolically: the embedding records which
call is made and with which data, since the repository contains no
statistical algorithm of its own.  Fallible operations (pandas raising
ValueError/KeyError) are embedded as `Except String`.
-/

namespace DfSummarySpec

/-- A dataframe column: its name, its pandas dtype string, and its cells
(`none` is NaN). Mirrors one column of the `df` attribute. -/
structure Column where
  name : String
  dtype : String
  cells : List (Option ℚ)
  deriving DecidableEq

/-- A dataframe: an ordered collection of columns. -/
structure DataFrame where
  cols : List Column
  deriving DecidableEq

/-- Pandas dtype strings selected by `select_dtypes(include=np.number)`. -/
def numericDtypes : List String := ["int64", "float64"]

/-- Whether a column is selected by `select_dtypes(include=np.number)`. -/
def isNumericCol (c : Column) : Bool := c.dtype ∈ numericDtypes

/-- Models `df.select_dtypes(include=np.number)`: the numeric columns, in order. -/
def numericSubset (df : DataFrame) : DataFrame :=
  ⟨df.cols.filter isNumericCol⟩

/-- Models `len(df)` / `df.shape[0]`: the row count, read off the first column. -/
def nRows (df : DataFrame) : ℕ :=
  match df.cols with
  | [] => 0
  | c :: _ => c.cells.length

/-- Models `df.shape[1]`: the column count. -/
def nCols (df : DataFrame) : ℕ := df.cols.length

/-- Models `df.columns`: the column names, in order. -/
def colNames (df : DataFrame) : List String := df.cols.map Column.name

/-- Well-formedness: every column has the same number of cells
(the pandas invariant that all columns share the index). -/
abbrev WF (df : DataFrame) : Prop :=
  ∀ c ∈ df.cols, c.cells.length = nRows df

/-- Python `str.lower()`: lowercase every character (the method strings
in play are ASCII, where per-character lowering is exactly `str.lower`). -/
def pyLower (s : String) : String := ⟨s.data.map Char.toLower⟩

/-- The grid-layout computation of `DfSummary.__init__`: `nrows = int(np.ceil(n / (1.0*ncols)))`
with `ncols = 3`, then `if nrows <= 1: nrows += 1`.  `(n + 2) / 3` is
`⌈n/3⌉` in natural arithmetic. -/
def computeNrows (n : ℕ) : ℕ :=
  let r := (n + 2) / 3
  if r ≤ 1 then r + 1 else r

/-- The `nrows` attribute set at `DfSummary.__init__`: the grid row count
for the numeric columns of the owned dataframe. -/
def initNrows (df : DataFrame) : ℕ :=
  computeNrows (nCols (numericSubset df))

/-- A dataframe with a single non-numeric column, used as a concrete
orchestrator input with zero numeric columns. -/
def dfNoNumeric : DataFrame :=
  ⟨[⟨"label", "object", [none, some 1]⟩]⟩

/-- A dataframe with two numeric columns (`A = [1, 2, 3, null]`,
`B = [4, 5, 6, 7]`), matching the spec's end-to-end example. -/
def dfAB : DataFrame :=
  ⟨[⟨"A", "float64", [some 1, some 2, some 3, none]⟩,
    ⟨"B", "int64", [some 4, some 5, some 6, some 7]⟩]⟩

/-- C1 (counterexample): with zero numeric columns the computed grid row
count is 1, so `rowCount ≥ 2` fails at `n = 0`: the claim's bound does not
hold for every `n ≥ 0`. -/
theorem initNrows_no_numeric_lt_two :
    initNrows dfNoNumeric = 1 ∧ ¬ 2 ≤ computeNrows 0 := by
  constructor
  · rfl
  · decide

/-- C1 (amended): for every numeric-column count `n ≥ 1`, the grid layout
computed at orchestrator construction yields `rowCount ≥ 2` and
`rowCount * 3 ≥ n` (at `n = 0` the code yields `rowCount = 1`, and
`rowCount * 3 ≥ n` still holds trivially). -/
theorem computeNrows_ge_two_and_covers (n : ℕ) (h : 1 ≤ n) :
    2 ≤ computeNrows n ∧ n ≤ computeNrows n * 3 := by
  unfold computeNrows
  dsimp only
  split <;> omega

/-- C1 (witness): at `n = 4` the hypothesis holds and the grid layout bound
is realized concretely (`computeNrows 4 = 2`). -/
theorem computeNrows_ge_two_and_covers_witness :
    2 ≤ computeNrows 4 ∧ 4 ≤ computeNrows 4 * 3 :=
  computeNrows_ge_two_and_covers 4 (by decide)

/-- A value appearing in a summary-table cell.  Statistics the source
delegates wholesale to the numeric engine (mean, min, max, std, quantiles,
skewness, kurtosis, nunique) are recorded symbolically as the call made
(`ext statTag cells`); the bookkeeping the source computes itself
(dtype, null count, null percentage) is computed. -/
inductive SVal where
  | str (s : String)
  | int (n : ℤ)
  | rat (q : ℚ)
  | ext (statTag : String) (cells : List (Option ℚ))
  deriving DecidableEq

/-- Models `df[col].isnull().sum()` for one column: the number of null cells. -/
def nullCount (c : Column) : ℕ := (c.cells.filter Option.isNone).length

/-- Round a rational to the nearest integer, ties to even — the semantics
of numpy/pandas `round` used by `round(..., 2)` on a Series. -/
def roundHalfEven (q : ℚ) : ℤ :=
  let f := ⌊q⌋
  if q - f < 1/2 then f
  else if 1/2 < q - f then f + 1
  else if f % 2 = 0 then f else f + 1

/-- Models `round(x, 2)`: round to two decimal places, ties to even. -/
def round2 (q : ℚ) : ℚ := (roundHalfEven (q * 100) : ℚ) / 100

/-- The columns assigned to `df_sum`, in the source's assignment order. -/
def statNames : List String :=
  ["dtype", "null_count", "null_percent", "unique_vals", "mean", "min",
   "max", "std", "25%", "median", "75%", "skewness", "kurtosis"]

/-- The cell of `df_sum` at row `c` (an input column) and column `stat`:
each line of `return_df_summary` contributes one case. -/
def summaryEntry (df : DataFrame) (stat : String) (c : Column) : SVal :=
  if stat = "dtype" then .str c.dtype
  else if stat = "null_count" then .int (nullCount c)
  else if stat = "null_percent" then
    .rat (round2 ((nullCount c : ℚ) / (nRows df : ℚ) * 100))
  else .ext stat c.cells

/-- A labelled two-dimensional table (the shape-and-labels view of a
pandas DataFrame built by `return_df_summary`): row labels, column
labels, and a cell accessor by labels. -/
structure Frame where
  index : List String
  columns : List String
  entry : String → String → SVal

/-- The frame `df_sum` as built by `return_df_summary` before the final transpose:
`pd.DataFrame(index=df.columns)` followed by thirteen column assignments,
so its rows are the input columns and its columns the statistic names. -/
def dfSumFrame (df : DataFrame) : Frame where
  index := colNames df
  columns := statNames
  entry := fun r s =>
    match df.cols.find? (fun c => c.name == r) with
    | some c => summaryEntry df s c
    | none => .str ""

/-- Models `.T`: transpose a frame, swapping row and column labels. -/
def transposeFrame (f : Frame) : Frame where
  index := f.columns
  columns := f.index
  entry := fun r s => f.entry s r

/-- Models `return_df_summary(df)` (dfsummary_helpers.py lines 4-30) in explicit
state-passing form: the first component is the dataframe after the call
(every source statement only reads `df`; all writes target the freshly
created `df_sum`), the second the returned `df_sum.T`. -/
def return_df_summary (df : DataFrame) : DataFrame × Frame :=
  (df, transposeFrame (dfSumFrame df))

/-- C4 (counterexample): on the two-column dataframe `dfAB` the produced
summary table has 13 rows (the statistic names), not 2, and its rows are
not the input columns — the claim's orientation is reversed. -/
theorem return_df_summary_not_input_rows :
    (return_df_summary dfAB).2.index.length ≠ nCols dfAB ∧
    (return_df_summary dfAB).2.index ≠ colNames dfAB := by
  constructor <;> decide

/-- C4 (amended): for every dataset, the table built per input column
(`df_sum`, before the final transpose) has exactly one row per input
column, and the returned presentation is its transpose: statistic names
are the output rows and the input columns are the output columns, so the
returned table's column count equals the input's column count. -/
theorem return_df_summary_shape (df : DataFrame) :
    (dfSumFrame df).index.length = nCols df ∧
    (return_df_summary df).2.index = statNames ∧
    (return_df_summary df).2.columns = colNames df ∧
    (return_df_summary df).2.columns.length = nCols df := by
  refine ⟨?_, rfl, rfl, ?_⟩ <;>
    simp [dfSumFrame, return_df_summary, transposeFrame, colNames, nCols]

/-- C5: for every non-empty dataset and every column of it, the
`null_percent` entry of the summary table is `100 * null_count / row_count`
rounded to two decimals.  (`find?` locates the row of `df_sum` labelled by
the column's name; the hypothesis pins it to `c` itself.) -/
theorem null_percent_formula (df : DataFrame) (c : Column)
    (hrow : 0 < nRows df)
    (hfind : df.cols.find? (fun c' => c'.name == c.name) = some c) :
    (return_df_summary df).2.entry "null_percent" c.name =
      .rat (round2 (100 * (nullCount c : ℚ) / (nRows df : ℚ))) := by
  have h100 : ((nullCount c : ℚ) / (nRows df : ℚ) * 100)
      = 100 * (nullCount c : ℚ) / (nRows df : ℚ) := by ring
  simp [return_df_summary, transposeFrame, dfSumFrame, hfind, summaryEntry,
    h100]

/-- C5 (witness): on `dfAB`, column `A` has 1 null out of 4 rows and its
`null_percent` entry is 25. -/
theorem null_percent_formula_witness :
    (return_df_summary dfAB).2.entry "null_percent" "A" =
      .rat (round2 (100 * ((1 : ℕ) : ℚ) / ((4 : ℕ) : ℚ))) := by
  have h := null_percent_formula dfAB
    ⟨"A", "float64", [some 1, some 2, some 3, none]⟩ (by decide) (by decide)
  exact h

/-- C9: the summary-table builder does not mutate its input: the dataset
threaded through `return_df_summary` comes back equal to the one passed
in. -/
theorem return_df_summary_preserves_input (df : DataFrame) :
    (return_df_summary df).1 = df := rfl

/-- The `drop_criteria` argument of `return_heatmap_data`: a Python string,
a Python list of column names, or `None`. -/
inductive DropCriteria where
  | str (s : String)
  | list (names : List String)
  | none
  deriving DecidableEq

/-- Whether row `i` has a null in any column (the rows removed by
`df.dropna(axis=0, how='any')`). -/
def rowHasNull (df : DataFrame) (i : ℕ) : Bool :=
  df.cols.any fun c => ((c.cells.get? i).getD Option.none).isNone

/-- The indices of the rows kept by `df.dropna(axis=0, how='any')`:
those without a null in any column, in order. -/
def keptRowIdx (df : DataFrame) : List ℕ :=
  (List.range (nRows df)).filter fun i => !(rowHasNull df i)

/-- Restrict a dataframe to the rows at the given indices, in order. -/
def selectRows (df : DataFrame) (idx : List ℕ) : DataFrame :=
  ⟨df.cols.map fun c =>
    ⟨c.name, c.dtype, idx.map fun i => (c.cells.get? i).getD Option.none⟩⟩

/-- Models `df.dropna(axis=0, how='any')`: drop every row containing a null. -/
def dropAnyRows (df : DataFrame) : DataFrame := selectRows df (keptRowIdx df)

/-- Models `df.dropna(axis=1, how='any')`: drop every column containing a null. -/
def dropAnyCols (df : DataFrame) : DataFrame :=
  ⟨df.cols.filter fun c => c.cells.all Option.isSome⟩

/-- Whether row `i` has a null in any of the named columns (the rows
removed by `df.dropna(axis=0, subset=names)`). -/
def rowHasNullIn (df : DataFrame) (names : List String) (i : ℕ) : Bool :=
  df.cols.any fun c =>
    names.contains c.name && ((c.cells.get? i).getD Option.none).isNone

/-- Models `df.dropna(axis=0, subset=names)` (all names present): drop every row
with a null in one of the named columns. -/
def dropSubsetRows (df : DataFrame) (names : List String) : DataFrame :=
  selectRows df
    ((List.range (nRows df)).filter fun i => !(rowHasNullIn df names i))

/-- A symbolic record of the external call `corr_data.corr(method)`: the
correlation matrix is computed entirely by the numeric engine, so the
embedding records the data and method it was handed. -/
structure CorrCall where
  data : DataFrame
  method : String
  deriving DecidableEq

/-- The correlation methods pandas `DataFrame.corr` accepts. -/
def validMethods : List String := ["pearson", "spearman", "kendall"]

/-- Modelled from the spec: the external numeric engine supplies
correlation for the methods pearson/spearman/kendall (§6); pandas
`DataFrame.corr` raises `ValueError` for any other method string.  The
embedding returns the call record on a valid method and the pandas error
otherwise. -/
def pandasCorr (df : DataFrame) (method : String) : Except String CorrCall :=
  if method ∈ validMethods then .ok ⟨df, method⟩
  else .error ("method must be either 'pearson', 'spearman', 'kendall', " ++
    "or a callable, '" ++ method ++ "' was supplied")

/-- The `heatmap_data` dictionary assembled by `return_heatmap_data`:
all three keys are always present. -/
structure HeatmapData where
  drop_count : ℤ
  title_text : String
  corrs : CorrCall
  deriving DecidableEq

/-- The tail of `return_heatmap_data` (dfsummary_helpers.py lines 85-88):
the single `corr_data.corr(method)` call and the assembled dictionary. -/
def finishHeatmapData (msgs : List String) (corr_data : DataFrame)
    (dcount : ℤ) (ttext : String) (method : String) :
    Except String (List String × HeatmapData) :=
  match pandasCorr corr_data method with
  | .ok corrs => .ok (msgs, ⟨dcount, ttext, corrs⟩)
  | .error e => .error e

/-- The drop-criteria branching of `return_heatmap_data`
(dfsummary_helpers.py lines 59-83), producing the messages printed, the
`corr_data` subset, `drop_count` and `title_text`. -/
def heatmapBranch (df : DataFrame) (dc : DropCriteria) :
    List String × DataFrame × ℤ × String :=
  match dc with
  | .str s =>
    if s = "any_rows" then
      ([], dropAnyRows df,
       (nRows df : ℤ) - (nRows (dropAnyRows df) : ℤ), "rows")
    else if s = "any_cols" then
      ([], dropAnyCols df,
       (nCols df : ℤ) - (nCols (dropAnyCols df) : ℤ), "columns")
    else
      (["Incorrect drop criteria specified.  No Null values were dropped."],
       df, 0, "rows or columns")
  | .list names =>
    if names.all (fun nm => (colNames df).contains nm) then
      ([], dropSubsetRows df names,
       (nRows df : ℤ) - (nRows (dropSubsetRows df names) : ℤ),
       "rows (subsetted on " ++ String.intercalate ", " names ++
         ") Null values")
    else
      (["Specified column does not exist in data.  No Null values were dropped."],
       df, 0, "rows or columns")
  | .none => ([], df, 0, "rows or columns")

/-- Models `return_heatmap_data(df, method, drop_criteria)`
(dfsummary_helpers.py lines 33-88).  The first component of a successful
result collects the messages printed; an `Except.error` is an uncaught
exception (the `except KeyError` clause catches only the missing-column
case, modelled by the `names.all` test in `heatmapBranch`). -/
def return_heatmap_data (df : DataFrame) (method : String)
    (dc : DropCriteria) : Except String (List String × HeatmapData) :=
  finishHeatmapData (heatmapBranch df dc).1 (heatmapBranch df dc).2.1
    (heatmapBranch df dc).2.2.1 (heatmapBranch df dc).2.2.2 method

/-- Models `DfSummary.return_heatmap(method, drop_criteria)`
(dfsummary.py lines 133-198): guard clause, then delegation to
`return_heatmap_data`.  A successful result carries the printed messages
and the cached `heatmap_data` (`Option.none` when the guard aborts the
operation); `Except.error` is an uncaught exception. -/
def return_heatmap (selfDf : DataFrame) (method : String)
    (dc : DropCriteria) : Except String (List String × Option HeatmapData) :=
  let df := numericSubset selfDf
  if nCols df < 2 ∨ pyLower method ∉ validMethods then
    .ok (["Invalid data or correlation method provided for heatmap to be generated."],
         Option.none)
  else
    match return_heatmap_data df method dc with
    | .ok (msgs, hd) => .ok (msgs, some hd)
    | .error e => .error e

/-- The number of rows of a dataset free of nulls in every column. -/
def nullFreeRowCount (df : DataFrame) : ℕ := (keptRowIdx df).length

theorem nRows_selectRows (df : DataFrame) (idx : List ℕ)
    (hne : df.cols ≠ []) : nRows (selectRows df idx) = idx.length := by
  cases h : df.cols with
  | nil => exact absurd h hne
  | cons c rest => simp [selectRows, nRows, h]

theorem nRows_dropAnyRows (df : DataFrame) :
    nRows (dropAnyRows df) = nullFreeRowCount df := by
  cases h : df.cols with
  | nil =>
    have h0 : nRows df = 0 := by simp [nRows, h]
    simp [dropAnyRows, selectRows, nRows, nullFreeRowCount, keptRowIdx, h, h0]
  | cons c rest =>
    rw [dropAnyRows, nRows_selectRows df _ (by simp [h])]
    rfl

theorem nullFreeRowCount_le (df : DataFrame) :
    nullFreeRowCount df ≤ nRows df := by
  simpa [nullFreeRowCount, keptRowIdx] using
    List.length_filter_le (fun i => !(rowHasNull df i)) (List.range (nRows df))

theorem nRows_dropSubsetRows_le (df : DataFrame) (names : List String) :
    nRows (dropSubsetRows df names) ≤ nRows df := by
  cases h : df.cols with
  | nil => simp [dropSubsetRows, selectRows, nRows, h]
  | cons c rest =>
    rw [dropSubsetRows, nRows_selectRows df _ (by simp [h])]
    simpa using
      List.length_filter_le (fun i => !(rowHasNullIn df names i))
        (List.range (nRows df))

theorem nCols_dropAnyCols_le (df : DataFrame) :
    nCols (dropAnyCols df) ≤ nCols df := by
  simpa [dropAnyCols, nCols] using
    List.length_filter_le (fun c => c.cells.all Option.isSome) df.cols

theorem finishHeatmapData_ok {method : String} (hm : method ∈ validMethods)
    (msgs : List String) (cd : DataFrame) (dcount : ℤ) (ttext : String) :
    finishHeatmapData msgs cd dcount ttext method =
      .ok (msgs, ⟨dcount, ttext, ⟨cd, method⟩⟩) := by
  unfold finishHeatmapData pandasCorr
  rw [if_pos hm]

/-- C2: whenever the numeric subset has fewer than 2 columns or the
lowercased method is not pearson/spearman/kendall, `return_heatmap`
prints the invalid-input message and returns no heatmap data, raising no
exception. -/
theorem return_heatmap_guard (df : DataFrame) (method : String)
    (dc : DropCriteria)
    (h : nCols (numericSubset df) < 2 ∨ pyLower method ∉ validMethods) :
    return_heatmap df method dc =
      .ok (["Invalid data or correlation method provided for heatmap to be generated."],
           Option.none) := by
  simp only [return_heatmap]
  rw [if_pos h]

/-- C2 (witness): on a dataset with no numeric column and a valid method,
the guard fires and the heatmap operation yields the message and no
data. -/
theorem return_heatmap_guard_witness :
    return_heatmap dfNoNumeric "pearson" DropCriteria.none =
      .ok (["Invalid data or correlation method provided for heatmap to be generated."],
           Option.none) :=
  return_heatmap_guard dfNoNumeric "pearson" DropCriteria.none
    (Or.inl (by decide))

/-- C3 (code bug): `"PEARSON"` passes the guard (two numeric columns and
`"PEARSON".lower()` is a recognized method), but the raw method string is
handed to pandas `DataFrame.corr`, which raises `ValueError` — so the
case-insensitively accepted method produces an exception instead of a
`CorrelationResult`. -/
theorem return_heatmap_uppercase_raises :
    2 ≤ nCols (numericSubset dfAB) ∧
    pyLower "PEARSON" ∈ validMethods ∧
    return_heatmap dfAB "PEARSON" DropCriteria.none =
      .error ("method must be either 'pearson', 'spearman', 'kendall', " ++
        "or a callable, 'PEARSON' was supplied") := by
  refine ⟨by decide, by decide, by rfl⟩

/-- C6: with a list-valued drop criterion naming a column absent from the
data and a valid method, `return_heatmap_data` prints the missing-column
warning, computes the correlation over the full unmodified data, and
reports `drop_count = 0` with description `"rows or columns"`; no
exception escapes. -/
theorem missing_column_soft_fallback (df : DataFrame) (method : String)
    (names : List String) (nm : String) (hm : method ∈ validMethods)
    (hnm : nm ∈ names) (hmiss : nm ∉ colNames df) :
    return_heatmap_data df method (.list names) =
      .ok (["Specified column does not exist in data.  No Null values were dropped."],
        ⟨0, "rows or columns", ⟨df, method⟩⟩) := by
  have hcond : ¬ ∀ x ∈ names, x ∈ colNames df :=
    fun hforall => hmiss (hforall nm hnm)
  simp [return_heatmap_data, heatmapBranch, finishHeatmapData_ok hm, hcond]

/-- C6 (witness): dropping on the absent column `"C"` of `dfAB` with
method `"pearson"` falls back softly to the unmodified data. -/
theorem missing_column_soft_fallback_witness :
    return_heatmap_data dfAB "pearson" (.list ["C"]) =
      .ok (["Specified column does not exist in data.  No Null values were dropped."],
        ⟨0, "rows or columns", ⟨dfAB, "pearson"⟩⟩) :=
  missing_column_soft_fallback dfAB "pearson" ["C"] "C" (by decide)
    (by decide) (by decide)

/-- C7: under the drop-any-row-with-null criterion with a valid method,
the prepared data retains exactly the null-free rows (its row count is
the number of rows without a null in any column), and the result reports
`drop_count = n - k` with description `"rows"`. -/
theorem any_rows_drop_count (df : DataFrame) (method : String)
    (hwf : WF df) (hm : method ∈ validMethods) :
    nRows (dropAnyRows df) = nullFreeRowCount df ∧
    return_heatmap_data df method (.str "any_rows") =
      .ok ([], ⟨(nRows df : ℤ) - (nullFreeRowCount df : ℤ), "rows",
        ⟨dropAnyRows df, method⟩⟩) := by
  refine ⟨nRows_dropAnyRows df, ?_⟩
  simp [return_heatmap_data, heatmapBranch, finishHeatmapData_ok hm,
    nRows_dropAnyRows df]

/-- C7 (witness): on `dfAB` (4 rows, row 3 has a null in `A`), dropping
any row with a null keeps 3 rows and reports 1 row dropped. -/
theorem any_rows_drop_count_witness :
    nRows (dropAnyRows dfAB) = nullFreeRowCount dfAB ∧
    return_heatmap_data dfAB "pearson" (.str "any_rows") =
      .ok ([], ⟨(nRows dfAB : ℤ) - (nullFreeRowCount dfAB : ℤ), "rows",
        ⟨dropAnyRows dfAB, "pearson"⟩⟩) :=
  any_rows_drop_count dfAB "pearson" (by decide) (by decide)

/-- C10 (counterexample): with the unrecognized method `"invalid"`,
`return_heatmap_data` does not return a dictionary at all — the
uncaught pandas `ValueError` escapes — so the claim fails for arbitrary
method strings. -/
theorem heatmap_data_invalid_method_raises :
    return_heatmap_data dfAB "invalid" DropCriteria.none =
      .error ("method must be either 'pearson', 'spearman', 'kendall', " ++
        "or a callable, 'invalid' was supplied") := rfl

/-- Every drop-criteria branch computes a non-negative `drop_count`:
dropping never adds rows or columns. -/
theorem heatmapBranch_drop_nonneg (df : DataFrame) (dc : DropCriteria) :
    0 ≤ (heatmapBranch df dc).2.2.1 := by
  have hrow : nRows (dropAnyRows df) ≤ nRows df := by
    rw [nRows_dropAnyRows]; exact nullFreeRowCount_le df
  have hcol := nCols_dropAnyCols_le df
  cases dc with
  | str s =>
    simp only [heatmapBranch]
    split
    · dsimp only; omega
    · split
      · dsimp only; omega
      · dsimp only; omega
  | list names =>
    have hsub := nRows_dropSubsetRows_le df names
    simp only [heatmapBranch]
    split
    · dsimp only; omega
    · dsimp only; omega
  | none =>
    simp only [heatmapBranch]
    omega

/-- C10 (amended): for every input dataframe, every drop criterion
(strings, lists and `None` alike), and every method pandas accepts
(pearson/spearman/kendall), `return_heatmap_data` returns a dictionary
holding all three keys, with a non-negative `drop_count`. -/
theorem heatmap_data_total (df : DataFrame) (method : String)
    (dc : DropCriteria) (hm : method ∈ validMethods) :
    ∃ msgs hd, return_heatmap_data df method dc = .ok (msgs, hd) ∧
      0 ≤ hd.drop_count := by
  refine ⟨(heatmapBranch df dc).1,
    ⟨(heatmapBranch df dc).2.2.1, (heatmapBranch df dc).2.2.2,
     ⟨(heatmapBranch df dc).2.1, method⟩⟩, ?_, ?_⟩
  · unfold return_heatmap_data
    exact finishHeatmapData_ok hm _ _ _ _
  · exact heatmapBranch_drop_nonneg df dc

/-- C10 (witness): a concrete run with the valid method `"spearman"` and
an unrecognized string criterion returns all three keys with
`drop_count = 0`. -/
theorem heatmap_data_total_witness :
    ∃ msgs hd,
      return_heatmap_data dfAB "spearman" (.str "bogus") =
        .ok (msgs, hd) ∧ 0 ≤ hd.drop_count :=
  heatmap_data_total dfAB "spearman" (.str "bogus") (by decide)

/-- What the boxplot renderer does for the swarm overlay of one column
(dfsummary.py lines 239-245): plot every non-null point, or request a
random sample of 2000 of them with a printed warning, or nothing. -/
inductive SwarmAction where
  | noSwarm
  | plotAll (points : List ℚ)
  | plotSampleWarn (message : String) (sampleSize : ℕ)
  deriving DecidableEq

/-- The swarm-overlay decision of `DfSummary.return_boxplots` for one
column: `col_no_null` is the column with nulls dropped; a column with
more than 2000 non-null points is downsampled via
`col_no_null.sample(2000)` (a uniform random sample drawn by the external
engine; the embedding records the requested size) after printing the
warning. -/
def swarmStep (swarmplot : Bool) (name : String)
    (cells : List (Option ℚ)) : SwarmAction :=
  let col_no_null := cells.filterMap id
  if swarmplot ∧ col_no_null.length ≤ 2000 then .plotAll col_no_null
  else if swarmplot ∧ col_no_null.length > 2000 then
    .plotSampleWarn
      ("There are " ++ toString col_no_null.length ++
       " non-null data points in the '" ++ name ++
       "' field.  2000 random points (only) will be plotted in the swarmplot.")
      2000
  else .noSwarm

/-- C8: when the swarm overlay is requested for a column, all non-null
points are plotted if there are at most 2000 of them; with more than
2000, a random sample of exactly 2000 is requested and the emitted
warning names the column and its non-null point count. -/
theorem swarm_overlay_cap (name : String) (cells : List (Option ℚ)) :
    ((cells.filterMap id).length ≤ 2000 →
      swarmStep true name cells = .plotAll (cells.filterMap id)) ∧
    (2000 < (cells.filterMap id).length →
      swarmStep true name cells = .plotSampleWarn
        ("There are " ++ toString (cells.filterMap id).length ++
         " non-null data points in the '" ++ name ++
         "' field.  2000 random points (only) will be plotted in the swarmplot.")
        2000) := by
  refine ⟨fun h => ?_, fun h => ?_⟩
  · simp [swarmStep, h]
  · have h1 : ¬ (cells.filterMap id).length ≤ 2000 := by omega
    simp [swarmStep, h1, h]

theorem filterMap_id_replicate_some (n : ℕ) (a : ℚ) :
    (List.replicate n (some a)).filterMap id = List.replicate n a := by
  induction n with
  | zero => rfl
  | succ k ih => simp [List.replicate_succ, ih]

/-- C8 (witness): a column with exactly 2001 non-null values is
downsampled to 2000 with the warning naming the count 2001. -/
theorem swarm_overlay_cap_witness :
    2000 < ((List.replicate 2001 (some (0 : ℚ))).filterMap id).length ∧
    swarmStep true "A" (List.replicate 2001 (some (0 : ℚ))) =
      .plotSampleWarn
        ("There are " ++
         toString ((List.replicate 2001 (some (0 : ℚ))).filterMap id).length ++
         " non-null data points in the '" ++ "A" ++
         "' field.  2000 random points (only) will be plotted in the swarmplot.")
        2000 := by
  have hlen : ((List.replicate 2001 (some (0 : ℚ))).filterMap id).length
      = 2001 := by
    rw [filterMap_id_replicate_some]
    exact List.length_replicate 2001 (0 : ℚ)
  have hgt : 2000 <
      ((List.replicate 2001 (some (0 : ℚ))).filterMap id).length := by
    rw [hlen]
    decide
  exact ⟨hgt, (swarm_overlay_cap "A" (List.replicate 2001 (some (0 : ℚ)))).2
    hgt⟩

end DfSummarySpec
